import Mathlib

/-
Verification of the resilient streaming client and credential lifecycle
manager of the gemini-cli-as-api repository (TypeScript), against its
natural-language specification.  The TypeScript sources are shallowly
embedded as executable Lean definitions: the pure parts (SSE decoding,
JSON parsing, retry/fallback decisions, response aggregation) become pure
functions, and effectful parts (HTTP attempts, the durable credential
file, the refresh endpoint) are modelled by passing in explicit outcome
lists / oracle functions and returning explicit event traces.
-/

namespace GeminiCli

/-! ## JSON values and a model of JSON.parse

The stream decoder calls the JavaScript builtin `JSON.parse`.  We model
JSON text by a recursive-descent parser over `List Char` following the
JSON grammar (ECMA-404), which is what `JSON.parse` accepts.  Numbers are
kept as their raw token text (the claims under verification only compare
integer literals, for which token equality and numeric equality agree). -/

inductive JsonVal where
  | jnull
  | jbool (b : Bool)
  | jnum (raw : String)
  | jstr (s : String)
  | jarr (items : List JsonVal)
  | jobj (members : List (String × JsonVal))

/-- The character `U+007B` (left curly brace). -/
def lcurly : Char := Char.ofNat 123

/-- The character `U+007D` (right curly brace). -/
def rcurly : Char := Char.ofNat 125

/-- JSON insignificant whitespace (space, tab, line feed, carriage return). -/
def isJsonWs (c : Char) : Bool :=
  c = ' ' ∨ c = '\t' ∨ c = '\n' ∨ c = '\r'

def skipWs : List Char → List Char
  | [] => []
  | c :: cs => if isJsonWs c then skipWs cs else c :: cs

def hexDigitVal (c : Char) : Option Nat :=
  if '0' ≤ c ∧ c ≤ '9' then some (c.toNat - '0'.toNat)
  else if 'a' ≤ c ∧ c ≤ 'f' then some (c.toNat - 'a'.toNat + 10)
  else if 'A' ≤ c ∧ c ≤ 'F' then some (c.toNat - 'A'.toNat + 10)
  else none

/-- Body of a JSON string literal, after the opening quote.  Returns the
decoded string and the remaining input. -/
def parseJStringBody : Nat → List Char → List Char → Option (String × List Char)
  | 0, _, _ => none
  | _ + 1, [], _ => none
  | f + 1, c :: cs, acc =>
    if c = '"' then some (String.mk acc.reverse, cs)
    else if c = '\\' then
      match cs with
      | [] => none
      | e :: cs2 =>
        if e = '"' ∨ e = '\\' ∨ e = '/' then parseJStringBody f cs2 (e :: acc)
        else if e = 'b' then parseJStringBody f cs2 (Char.ofNat 8 :: acc)
        else if e = 'f' then parseJStringBody f cs2 (Char.ofNat 12 :: acc)
        else if e = 'n' then parseJStringBody f cs2 ('\n' :: acc)
        else if e = 'r' then parseJStringBody f cs2 ('\r' :: acc)
        else if e = 't' then parseJStringBody f cs2 ('\t' :: acc)
        else if e = 'u' then
          match cs2 with
          | h1 :: h2 :: h3 :: h4 :: cs3 =>
            match hexDigitVal h1, hexDigitVal h2, hexDigitVal h3, hexDigitVal h4 with
            | some a, some b, some c2, some d =>
              parseJStringBody f cs3 (Char.ofNat (((a * 16 + b) * 16 + c2) * 16 + d) :: acc)
            | _, _, _, _ => none
          | _ => none
        else none
    else if c.toNat < 32 then none
    else parseJStringBody f cs (c :: acc)

def takeDigits : List Char → List Char × List Char
  | [] => ([], [])
  | c :: cs =>
    if c.isDigit then
      let r := takeDigits cs
      (c :: r.1, r.2)
    else ([], c :: cs)

/-- A JSON number token (`-? int frac? exp?`), returned as raw text. -/
def parseJNumber (cs : List Char) : Option (String × List Char) :=
  let sr : List Char × List Char :=
    match cs with
    | '-' :: r => (['-'], r)
    | _ => ([], cs)
  let intResult : Option (List Char × List Char) :=
    match sr.2 with
    | '0' :: r => some (['0'], r)
    | c :: _ => if c.isDigit then some (takeDigits sr.2) else none
    | [] => none
  match intResult with
  | none => none
  | some (intDs, cs2) =>
    let fracResult : Option (List Char × List Char) :=
      match cs2 with
      | '.' :: r =>
        let dr := takeDigits r
        if dr.1 = [] then none else some ('.' :: dr.1, dr.2)
      | _ => some ([], cs2)
    match fracResult with
    | none => none
    | some (fracDs, cs3) =>
      let expResult : Option (List Char × List Char) :=
        match cs3 with
        | c :: r =>
          if c = 'e' ∨ c = 'E' then
            let sgn : List Char × List Char :=
              match r with
              | '+' :: rr => (['+'], rr)
              | '-' :: rr => (['-'], rr)
              | _ => ([], r)
            let dr := takeDigits sgn.2
            if dr.1 = [] then none else some (c :: (sgn.1 ++ dr.1), dr.2)
          else some ([], cs3)
        | [] => some ([], [])
      match expResult with
      | none => none
      | some (expDs, cs4) =>
        some (String.mk (sr.1 ++ intDs ++ fracDs ++ expDs), cs4)

mutual

def parseJValue : Nat → List Char → Option (JsonVal × List Char)
  | 0, _ => none
  | f + 1, cs =>
    match skipWs cs with
    | [] => none
    | c :: cs1 =>
      if c = lcurly then
        match skipWs cs1 with
        | c2 :: cs2 =>
          if c2 = rcurly then some (.jobj [], cs2)
          else parseJMembers f (c2 :: cs2) []
        | [] => none
      else if c = '[' then
        match skipWs cs1 with
        | c2 :: cs2 =>
          if c2 = ']' then some (.jarr [], cs2)
          else parseJItems f (c2 :: cs2) []
        | [] => none
      else if c = '"' then
        match parseJStringBody (cs1.length + 1) cs1 [] with
        | some (s, cs2) => some (.jstr s, cs2)
        | none => none
      else if c = 't' then
        match cs1 with
        | 'r' :: 'u' :: 'e' :: r => some (.jbool true, r)
        | _ => none
      else if c = 'f' then
        match cs1 with
        | 'a' :: 'l' :: 's' :: 'e' :: r => some (.jbool false, r)
        | _ => none
      else if c = 'n' then
        match cs1 with
        | 'u' :: 'l' :: 'l' :: r => some (.jnull, r)
        | _ => none
      else if c = '-' ∨ c.isDigit then
        match parseJNumber (c :: cs1) with
        | some (raw, cs2) => some (.jnum raw, cs2)
        | none => none
      else none

def parseJMembers : Nat → List Char → List (String × JsonVal) →
    Option (JsonVal × List Char)
  | 0, _, _ => none
  | f + 1, cs, acc =>
    match skipWs cs with
    | c :: cs1 =>
      if c = '"' then
        match parseJStringBody (cs1.length + 1) cs1 [] with
        | some (key, cs2) =>
          match skipWs cs2 with
          | ':' :: cs3 =>
            match parseJValue f cs3 with
            | some (v, cs4) =>
              match skipWs cs4 with
              | ',' :: cs5 => parseJMembers f cs5 (acc ++ [(key, v)])
              | c2 :: cs5 =>
                if c2 = rcurly then some (.jobj (acc ++ [(key, v)]), cs5)
                else none
              | [] => none
            | none => none
          | _ => none
        | none => none
      else none
    | [] => none

def parseJItems : Nat → List Char → List JsonVal → Option (JsonVal × List Char)
  | 0, _, _ => none
  | f + 1, cs, acc =>
    match parseJValue f cs with
    | some (v, cs2) =>
      match skipWs cs2 with
      | ',' :: cs3 => parseJItems f cs3 (acc ++ [v])
      | ']' :: cs3 => some (.jarr (acc ++ [v]), cs3)
      | _ => none
    | none => none

end

/-- Model of the JavaScript builtin `JSON.parse` applied to the given
characters: parse one JSON value, allowing surrounding whitespace, and
reject trailing garbage.  `none` models a thrown `SyntaxError`. -/
def jsonParse (cs : List Char) : Option JsonVal :=
  match parseJValue (cs.length + 1) cs with
  | some (v, rest) => if skipWs rest = [] then some v else none
  | none => none

/-! ## The incremental SSE decoder

Embedding of `GeminiApiClient.parseSSEStream` (src/unnamed/part_006,
lines 75-141).  The decoder state is the unterminated-line `buffer`, the
accumulated `objectBuffer` of "data:"-line bodies, and the list of events
yielded so far.  `feedSSEChunk` is one iteration of the read loop for a
read that delivered text `value`; `finalFlush` is the `done` branch. -/

structure SSEState where
  buffer : List Char
  objectBuffer : List Char
  events : List JsonVal

/-- Splitting on newline, as JavaScript `String.prototype.split("\n")`:
every occurrence separates, empty pieces are kept, the result is never
empty. -/
def splitLinesAux : List Char → List (List Char)
  | [] => [[]]
  | c :: rest =>
    let r := splitLinesAux rest
    if c = '\n' then [] :: r
    else
      match r with
      | h :: t => (c :: h) :: t
      | [] => [[c]]

/-- One iteration of the `for (const line of lines)` body: a blank line
(`line.trim() === ""`) flushes `objectBuffer` through `JSON.parse`,
discarding the payload on a parse error; a `"data: "` line appends its
body (`line.substring(6)`); any other line is ignored. -/
def processSSELine (st : List Char × List JsonVal) (line : List Char) :
    List Char × List JsonVal :=
  if line.all isJsonWs then
    if st.1 ≠ [] then
      match jsonParse st.1 with
      | some v => ([], st.2 ++ [v])
      | none => ([], st.2)
    else st
  else
    match line with
    | 'd' :: 'a' :: 't' :: 'a' :: ':' :: ' ' :: body => (st.1 ++ body, st.2)
    | _ => st

/-- One successful `reader.read()` delivering the text `value`:
`buffer += value`, split on newlines, keep the final (unterminated)
piece as the new buffer, process every complete line. -/
def feedSSEChunk (st : SSEState) (value : String) : SSEState :=
  let pieces := splitLinesAux (st.buffer ++ value.data)
  let buffer' := pieces.getLast?.getD []
  let lines := pieces.dropLast
  let r := lines.foldl processSSELine (st.objectBuffer, st.events)
  ⟨buffer', r.1, r.2⟩

/-- The `done` branch: a final non-empty `objectBuffer` is flushed through
`JSON.parse` one last time (a parse error is logged and dropped). -/
def finalFlush (st : SSEState) : List JsonVal :=
  if st.objectBuffer ≠ [] then
    match jsonParse st.objectBuffer with
    | some v => st.events ++ [v]
    | none => st.events
  else st.events

/-- The events yielded by `parseSSEStream` over a stream delivering the
given text chunks and then ending. -/
def parseSSEStream (chunks : List String) : List JsonVal :=
  finalFlush (chunks.foldl feedSSEChunk ⟨[], [], []⟩)

/-! ## The read loop with the idle timer

Each loop iteration of `parseSSEStream` arms an idle timer that calls
`reader.cancel("IdleTimeout")` when it fires.  Per the WHATWG Streams
standard, cancelling through a default reader closes the stream and
resolves every pending `read()` with `done: true`; the pending read is
not rejected, so the `error === "IdleTimeout"` comparison in the source's
catch block can never see the cancellation.  `ReadResult` models what one
awaited `reader.read()` does: deliver text, report end of stream, get
resolved with `done: true` because the idle timer cancelled the reader,
or reject because the underlying stream errored. -/

inductive ReadResult where
  | chunk (s : String)
  | doneEnd
  | idleCancelled
  | rejectedRead (msg : String)

/-- How the `parseSSEStream` generator terminates: either it completes
normally after yielding `events`, or it throws after yielding them. -/
inductive SSEOutcome where
  | ended (events : List JsonVal)
  | failed (events : List JsonVal) (msg : String)

/-- The read loop of `parseSSEStream` run against the given sequence of
read results.  `idleCancelled` takes the `done` branch (final flush and a
normal return) because cancellation resolves the read with `done: true`;
a rejected read propagates out of the generator as a thrown error. -/
def runSSERead (st : SSEState) : List ReadResult → SSEOutcome
  | [] => .ended st.events
  | .chunk s :: rest => runSSERead (feedSSEChunk st s) rest
  | .doneEnd :: _ => .ended (finalFlush st)
  | .idleCancelled :: _ => .ended (finalFlush st)
  | .rejectedRead msg :: _ => .failed st.events msg

/-! ## Stream chunk data model

Embedding of the `GeminiNativeStreamChunk` / `GeminiNativeResponse` data
flowing out of `performNativeStreamRequest`.  Parts are opaque payloads
except for their optional text (the only field the client itself
constructs); `groundingMetadata` is an opaque mapping.  All chunks carry
`type: "gemini_native"`, so the tag is not modelled separately. -/

inductive Part where
  | text (s : String)
  | otherPart (tag : String)
deriving DecidableEq, Repr

structure RawUsage where
  promptTokenCount : Option Nat
  candidatesTokenCount : Option Nat
  totalTokenCount : Option Nat
deriving DecidableEq, Repr

structure Usage where
  promptTokenCount : Nat
  candidatesTokenCount : Nat
  totalTokenCount : Nat
deriving DecidableEq, Repr

/-- One candidate of a decoded upstream SSE event
(`jsonData.response.candidates[i]`): `contentParts` is
`candidate.content?.parts` (absent when `content` is absent or has no
`parts`). -/
structure RawCandidate where
  contentParts : Option (List Part)
  finishReason : Option String
  groundingMetadata : Option String
deriving DecidableEq, Repr

/-- One decoded upstream SSE event: `candidates` is
`jsonData.response?.candidates`, possibly an empty array (an empty array
is truthy in JavaScript, so presence, not non-emptiness, is what the
source tests). -/
structure RawEvent where
  candidates : Option (List RawCandidate)
  usageMetadata : Option RawUsage
deriving DecidableEq, Repr

structure Candidate where
  role : String
  parts : List Part
  finishReason : Option String
  groundingMetadata : Option String
deriving DecidableEq, Repr

/-- The payload of one yielded `gemini_native` stream chunk. -/
structure ChunkData where
  candidates : List Candidate
  usageMetadata : Option Usage
  modelVersion : String
deriving DecidableEq, Repr

/-- Token accounting applied to an upstream `usageMetadata`
(src/unnamed/part_006, lines 492-500): absent counts default to 0 via
`|| 0`, and `totalTokenCount` is recomputed as the sum of the prompt and
candidate counts, ignoring any upstream `totalTokenCount`. -/
def mapUsageMetadata (u : RawUsage) : Usage :=
  { promptTokenCount := u.promptTokenCount.getD 0
    candidatesTokenCount := u.candidatesTokenCount.getD 0
    totalTokenCount := u.promptTokenCount.getD 0 + u.candidatesTokenCount.getD 0 }

/-- One iteration of the `for await (const jsonData of parseSSEStream)`
body: events without `response.candidates` are skipped; otherwise a chunk
is yielded whose candidates force `role: "model"` and default missing
parts to `[]`, and whose usage metadata goes through `mapUsageMetadata`. -/
def processStreamEvent (modelId : String) (e : RawEvent) : Option ChunkData :=
  match e.candidates with
  | none => none
  | some cs =>
    some
      { candidates := cs.map fun c =>
          { role := "model"
            parts := c.contentParts.getD []
            finishReason := c.finishReason
            groundingMetadata := c.groundingMetadata }
        usageMetadata := e.usageMetadata.map mapUsageMetadata
        modelVersion := modelId }

/-! ## FallbackPolicy (AutoModelSwitchingHelper and constants) -/

def CONNECTION_TIMEOUT_MS : Int := 100000

def IDLE_TIMEOUT_MS : Int := 100000

def QUICK_FAIL_THRESHOLD_MS : Int := 5000

def AUTO_SWITCH_MODEL_MAP : List (String × String) :=
  [("gemini-3-pro-preview", "gemini-3-flash-preview"),
   ("gemini-2.5-pro", "gemini-2.5-flash")]

def RATE_LIMIT_STATUS_CODES : List Nat := [429, 503]

/-- The environment flag consulted by `AutoModelSwitchingHelper`. -/
structure AutoSwitchEnv where
  ENABLE_AUTO_MODEL_SWITCHING : Option String
deriving DecidableEq, Repr

def isEnabled (env : AutoSwitchEnv) : Bool :=
  env.ENABLE_AUTO_MODEL_SWITCHING == some "true"

def getFallbackModel (originalModel : String) : Option String :=
  AUTO_SWITCH_MODEL_MAP.lookup originalModel

def isRateLimitStatus (status : Nat) : Bool :=
  RATE_LIMIT_STATUS_CODES.contains status

def createSwitchNotification (originalModel fallbackModel : String) : String :=
  "[Auto-switched from " ++ originalModel ++ " to " ++ fallbackModel ++
    " due to rate limiting]\n\n"

/-! ## The retry/fallback state machine of performNativeStreamRequest

Embedding of `GeminiApiClient.performNativeStreamRequest`
(src/unnamed/part_006, lines 411-525).  One HTTP attempt is an opaque
environment outcome (`AttemptOutcome`), consumed in issue order; times
are absolute milliseconds.  The function returns the yielded chunks, a
trace of the fetches issued (with their `isRetry` marks) and of the
401-reauthentication side effects, the unconsumed outcomes, the
termination (normal or thrown), and the time at which it terminated.

The source retries by recursing through `yield*`.  The 401 and fallback
recursions sit inside the `try` block, so an error thrown by such a
nested retried attempt is caught by the *enclosing* frame's catch clause,
where it is subject to the quick-fail/timeout retry; the quick-fail
recursion itself sits inside the catch clause, so its errors propagate
out unconditionally. -/

/-- A JavaScript exception: `isAbortError` models
`error instanceof Error && error.name === "AbortError"` (the connection
timeout's `controller.abort()`). -/
structure Exc where
  isAbortError : Bool
  message : String
deriving DecidableEq, Repr

/-- A normalized stream request: the substituted `model` field plus the
rest of the request object, which fallback substitution never touches
(`{ ...streamRequest, model: fallbackModel }`). -/
structure StreamReq where
  model : String
  body : String
deriving DecidableEq, Repr

/-- What the environment makes of one issued fetch: a successful
response whose stream decodes to `events` and ends at `endTime`; a
successful response whose decoding throws exception `e` at `failTime`
after `events` were decoded; a non-2xx response handled at `failTime`;
or a fetch that itself rejects (connection abort / network failure). -/
inductive AttemptOutcome where
  | ok (events : List RawEvent) (endTime : Int)
  | okThenExc (events : List RawEvent) (e : Exc) (failTime : Int)
  | httpErr (status : Nat) (failTime : Int)
  | preExc (e : Exc) (failTime : Int)
deriving DecidableEq, Repr

/-- Observable side effects of the streaming client, in order: an issued
fetch with its retry mark, or the 401 handler's
`clearTokenCache(); initializeAuth()` pair. -/
inductive StreamEv where
  | fetchIssue (req : StreamReq) (isRetry : Bool)
  | authReauth
deriving DecidableEq, Repr

inductive StreamTermination where
  | success
  | failure (e : Exc)
deriving DecidableEq, Repr

structure PerformOut where
  emitted : List ChunkData
  trace : List StreamEv
  rest : List AttemptOutcome
  result : StreamTermination
  endTime : Int
deriving DecidableEq, Repr

/-- The synthetic model-switch notice chunk yielded before a fallback
attempt (src/unnamed/part_006, lines 453-466). -/
def noticeChunk (modelId fallbackModel : String) : ChunkData :=
  { candidates :=
      [{ role := "model"
         parts := [Part.text (createSwitchNotification modelId fallbackModel)]
         finishReason := none
         groundingMetadata := none }]
    usageMetadata := none
    modelVersion := fallbackModel }

def performNativeStreamRequest (fuel : Nat) (env : AutoSwitchEnv)
    (attempts : List AttemptOutcome) (streamRequest : StreamReq)
    (modelId : String) (isRetry : Bool) (startTime : Int) : PerformOut :=
  match fuel with
  | 0 => ⟨[], [], attempts, .failure ⟨false, "model: fuel exhausted"⟩, startTime⟩
  | f + 1 =>
    match attempts with
    | [] =>
      ⟨[], [.fetchIssue streamRequest isRetry], [],
        .failure ⟨false, "model: no attempt outcome"⟩, startTime⟩
    | a :: rest =>
      let issue := StreamEv.fetchIssue streamRequest isRetry
      match a with
      | .ok events t =>
        ⟨events.filterMap (processStreamEvent modelId), [issue], rest, .success, t⟩
      | .okThenExc events e t =>
        let emitted := events.filterMap (processStreamEvent modelId)
        if !isRetry && (e.isAbortError || decide (t - startTime < QUICK_FAIL_THRESHOLD_MS)) then
          let r := performNativeStreamRequest f env rest streamRequest modelId true t
          ⟨emitted ++ r.emitted, issue :: r.trace, r.rest, r.result, r.endTime⟩
        else
          ⟨emitted, [issue], rest, .failure e, t⟩
      | .preExc e t =>
        if !isRetry && (e.isAbortError || decide (t - startTime < QUICK_FAIL_THRESHOLD_MS)) then
          let r := performNativeStreamRequest f env rest streamRequest modelId true t
          ⟨r.emitted, issue :: r.trace, r.rest, r.result, r.endTime⟩
        else
          ⟨[], [issue], rest, .failure e, t⟩
      | .httpErr status t =>
        let httpExc : Exc := ⟨false, "Stream request failed: " ++ toString status⟩
        let throwPath : PerformOut :=
          if !isRetry && (httpExc.isAbortError || decide (t - startTime < QUICK_FAIL_THRESHOLD_MS)) then
            let r := performNativeStreamRequest f env rest streamRequest modelId true t
            ⟨r.emitted, issue :: r.trace, r.rest, r.result, r.endTime⟩
          else
            ⟨[], [issue], rest, .failure httpExc, t⟩
        if status == 401 && !isRetry then
          let inner := performNativeStreamRequest f env rest streamRequest modelId true t
          match inner.result with
          | .success =>
            ⟨inner.emitted, issue :: .authReauth :: inner.trace, inner.rest, .success,
              inner.endTime⟩
          | .failure e =>
            if !isRetry &&
                (e.isAbortError || decide (inner.endTime - startTime < QUICK_FAIL_THRESHOLD_MS)) then
              let r := performNativeStreamRequest f env inner.rest streamRequest modelId true
                inner.endTime
              ⟨inner.emitted ++ r.emitted, issue :: .authReauth :: (inner.trace ++ r.trace),
                r.rest, r.result, r.endTime⟩
            else
              ⟨inner.emitted, issue :: .authReauth :: inner.trace, inner.rest, .failure e,
                inner.endTime⟩
        else if isRateLimitStatus status && !isRetry then
          match getFallbackModel modelId with
          | some fallbackModel =>
            if isEnabled env then
              let notice := noticeChunk modelId fallbackModel
              let inner := performNativeStreamRequest f env rest
                { streamRequest with model := fallbackModel } fallbackModel true t
              match inner.result with
              | .success =>
                ⟨notice :: inner.emitted, issue :: inner.trace, inner.rest, .success,
                  inner.endTime⟩
              | .failure e =>
                if !isRetry &&
                    (e.isAbortError ||
                      decide (inner.endTime - startTime < QUICK_FAIL_THRESHOLD_MS)) then
                  let r := performNativeStreamRequest f env inner.rest streamRequest modelId
                    true inner.endTime
                  ⟨notice :: inner.emitted ++ r.emitted, issue :: (inner.trace ++ r.trace),
                    r.rest, r.result, r.endTime⟩
                else
                  ⟨notice :: inner.emitted, issue :: inner.trace, inner.rest, .failure e,
                    inner.endTime⟩
            else throwPath
          | none => throwPath
        else throwPath

/-! ## Aggregation: getCompletionNative

Embedding of `GeminiApiClient.getCompletionNative` (src/unnamed/part_006,
lines 160-204): the chunk stream is drained into a single response with
at most one candidate.  JavaScript truthiness is preserved: the
`candidate.content?.parts` push always runs for the chunks this client
produces (their parts arrays are always present, and arrays are truthy
even when empty); `if (candidate.finishReason)` skips an empty string;
`if (candidate.groundingMetadata)` and `if (chunk.data.usageMetadata)`
test presence, objects being always truthy. -/

structure GeminiNativeResponse where
  candidates : List Candidate
  usageMetadata : Option Usage
  modelVersion : String
deriving DecidableEq, Repr

/-- The body of `for (const candidate of chunk.data.candidates)`: on the
first candidate the single aggregate candidate is created with role
"model" and no parts, then the arriving candidate's parts are appended
and truthy `finishReason` / `groundingMetadata` overwrite the previous
values. -/
def candidateStep (acc : Option Candidate) (c : Candidate) : Option Candidate :=
  let base :=
    match acc with
    | none => { role := "model", parts := [], finishReason := none,
                groundingMetadata := none : Candidate }
    | some b => b
  let base := { base with parts := base.parts ++ c.parts }
  let base :=
    match c.finishReason with
    | some fr => if fr = "" then base else { base with finishReason := some fr }
    | none => base
  let base :=
    match c.groundingMetadata with
    | some g => { base with groundingMetadata := some g }
    | none => base
  some base

/-- The body of `for await (const chunk of ...)`: fold the chunk's
candidates into the aggregate candidate, and let a present
`usageMetadata` replace the last-seen one. -/
def aggregateStep (st : Option Candidate × Option Usage) (ch : ChunkData) :
    Option Candidate × Option Usage :=
  let cand := ch.candidates.foldl candidateStep st.1
  let usage :=
    match ch.usageMetadata with
    | some u => some u
    | none => st.2
  (cand, usage)

def getCompletionNative (modelId : String) (chunks : List ChunkData) :
    GeminiNativeResponse :=
  let st := chunks.foldl aggregateStep (none, none)
  { candidates :=
      match st.1 with
      | none => []
      | some c => [c]
    usageMetadata := st.2
    modelVersion := modelId }

/-- Specification-side helper: the last value of `xs` when there is one,
else the default `d`.  Captures last-seen-wins accumulation. -/
def lastSeenOr {α : Type} (d : Option α) (xs : List α) : Option α :=
  match xs.getLast? with
  | some v => some v
  | none => d

/-! ## AuthManager (src/src/constants.ts, second file: auth.ts)

Embedding of `AuthManager.initializeAuth`, `refreshAndCacheToken` and
`callEndpoint`.  Effects are made explicit: the durable token file is a
value of type `Option CachedTokenData` (a read failure is already a
`none`, as `getTokenFromFile` swallows errors), the refresh endpoint is
an oracle from the posted refresh token to either a
`TokenRefreshResponse` or a failure body, and HTTP calls of
`callEndpoint` are environment outcomes consumed in order.  The token
buffer (`TOKEN_BUFFER_TIME`, defined in the config module, 5 minutes by
default per the specification) is a parameter `bufferTime`.  Timestamps
are absolute milliseconds; the wall clock is frozen at `now` for the
duration of one call. -/

structure CachedTokenData where
  access_token : String
  refresh_token : Option String
  expiry_date : Int
  cached_at : Int
deriving DecidableEq, Repr

/-- The seed credential parsed from `GCP_SERVICE_ACCOUNT` (the unused
`scope`, `token_type` and `id_token` fields are omitted). -/
structure OAuth2Credentials where
  access_token : String
  refresh_token : String
  expiry_date : Int
deriving DecidableEq, Repr

structure TokenRefreshResponse where
  access_token : String
  expires_in : Int
  refresh_token : Option String
deriving DecidableEq, Repr

inductive RefreshOutcome where
  | refreshed (accessToken : String) (file : CachedTokenData)
  | refreshFailed (msg : String)
deriving DecidableEq, Repr

/-- Embedding of `refreshAndCacheToken`: POST the refresh token; on a
non-2xx response throw; on success adopt the returned access token,
compute `expiry = now + expires_in * 1000`, keep the old refresh token
unless a new one was issued, and cache the record (with `cached_at =
now`). -/
def refreshAndCacheToken (oracle : String → Except String TokenRefreshResponse)
    (refreshToken : String) (now : Int) : RefreshOutcome :=
  match oracle refreshToken with
  | .error errorText => .refreshFailed ("Token refresh failed: " ++ errorText)
  | .ok refreshData =>
    let expiryTime := now + refreshData.expires_in * 1000
    let nextRefreshToken :=
      match refreshData.refresh_token with
      | some rt => rt
      | none => refreshToken
    .refreshed refreshData.access_token
      ⟨refreshData.access_token, some nextRefreshToken, expiryTime, now⟩

inductive AuthResult where
  | ok
  | authError (msg : String)
deriving DecidableEq, Repr

/-- Observable outcome of one `initializeAuth` call: the in-memory
access token and durable file afterwards, how many POSTs were made to
the refresh endpoint, and whether the call returned or threw. -/
structure AuthOut where
  accessToken : Option String
  fileCache : Option CachedTokenData
  refreshCalls : Nat
  result : AuthResult
deriving DecidableEq, Repr

/-- The tail of `initializeAuth` from the `JSON.parse` of the
environment credentials onwards: adopt and persist a still-fresh seed
credential, otherwise refresh with the seed's refresh token.
`preCalls` counts refresh POSTs already made by the stale-cache path. -/
def initializeAuthEnvPath (oauth2Creds : OAuth2Credentials)
    (accessToken0 : Option String) (fileCache : Option CachedTokenData)
    (now bufferTime : Int) (oracle : String → Except String TokenRefreshResponse)
    (preCalls : Nat) : AuthOut :=
  if oauth2Creds.expiry_date - now > bufferTime then
    { accessToken := some oauth2Creds.access_token
      fileCache := some ⟨oauth2Creds.access_token, some oauth2Creds.refresh_token,
        oauth2Creds.expiry_date, now⟩
      refreshCalls := preCalls
      result := .ok }
  else
    match refreshAndCacheToken oracle oauth2Creds.refresh_token now with
    | .refreshed tok file =>
      { accessToken := some tok, fileCache := some file,
        refreshCalls := preCalls + 1, result := .ok }
    | .refreshFailed msg =>
      { accessToken := accessToken0, fileCache := fileCache,
        refreshCalls := preCalls + 1,
        result := .authError ("Authentication failed: " ++ msg) }

/-- Embedding of `initializeAuth`: (1) a cached credential fresher than
the buffer is adopted as-is; (2) a stale cached credential with a
refresh token is refreshed, falling through to the environment
credentials if that refresh fails; (3) otherwise the seed credential is
parsed and `initializeAuthEnvPath` runs. -/
def initializeAuth (gcpServiceAccount : Option OAuth2Credentials)
    (accessToken0 : Option String) (fileCache : Option CachedTokenData)
    (now bufferTime : Int)
    (oracle : String → Except String TokenRefreshResponse) : AuthOut :=
  match gcpServiceAccount with
  | none =>
    { accessToken := accessToken0, fileCache := fileCache, refreshCalls := 0,
      result := .authError
        "`GCP_SERVICE_ACCOUNT` environment variable not set. Please provide OAuth2 credentials JSON." }
  | some oauth2Creds =>
    match fileCache with
    | some cachedTokenData =>
      if cachedTokenData.expiry_date - now > bufferTime then
        { accessToken := some cachedTokenData.access_token, fileCache := fileCache,
          refreshCalls := 0, result := .ok }
      else
        match cachedTokenData.refresh_token with
        | some cachedRefreshToken =>
          match refreshAndCacheToken oracle cachedRefreshToken now with
          | .refreshed tok file =>
            { accessToken := some tok, fileCache := some file, refreshCalls := 1,
              result := .ok }
          | .refreshFailed _ =>
            initializeAuthEnvPath oauth2Creds accessToken0 fileCache now bufferTime oracle 1
        | none =>
          initializeAuthEnvPath oauth2Creds accessToken0 fileCache now bufferTime oracle 0
    | none => initializeAuthEnvPath oauth2Creds accessToken0 fileCache now bufferTime oracle 0

/-! ## callEndpoint (the token-authenticated invoke path) -/

/-- What the environment makes of one `callEndpoint` fetch. -/
inductive CallOutcome where
  | okResp (body : String)
  | httpFail (status : Nat) (bodyText : String)
deriving DecidableEq, Repr

/-- Observable side effects of `callEndpoint`, in order. -/
inductive AuthEv where
  | authInit
  | clearCache
  | fetchCall (method : String) (isRetry : Bool)
deriving DecidableEq, Repr

inductive CallResult where
  | success (body : String)
  | callFailed (msg : String)
deriving DecidableEq, Repr

structure CallOut where
  trace : List AuthEv
  result : CallResult
  rest : List CallOutcome
deriving DecidableEq, Repr

/-- Embedding of `AuthManager.callEndpoint` (src/src/constants.ts,
lines 313-338): run `initializeAuth`, issue the POST; on a 401 of a
non-retried call clear the in-memory and file token caches, re-run
`initializeAuth`, and recurse once with the retry mark; any other
non-2xx (or a retried 401) throws with status and body.
`initializeAuth` is modelled as succeeding (its failures abort before
any fetch and are outside these claims). -/
def callEndpoint (outcomes : List CallOutcome) (method : String)
    (isRetry : Bool) : CallOut :=
  match outcomes with
  | [] => ⟨[.authInit, .fetchCall method isRetry], .callFailed "model: no outcome", []⟩
  | o :: rest =>
    match o with
    | .okResp body =>
      ⟨[.authInit, .fetchCall method isRetry], .success body, rest⟩
    | .httpFail status bodyText =>
      if status == 401 && !isRetry then
        let r := callEndpoint rest method true
        ⟨.authInit :: .fetchCall method isRetry :: .clearCache :: .authInit :: r.trace,
          r.result, r.rest⟩
      else
        ⟨[.authInit, .fetchCall method isRetry],
          .callFailed ("API call failed with status " ++ toString status ++ ": " ++ bodyText),
          rest⟩

/-! ## Helper lemmas -/

theorem rateLimit_ne_401 {s : Nat} (h : isRateLimitStatus s = true) :
    (s == 401) = false := by
  simp [isRateLimitStatus, RATE_LIMIT_STATUS_CODES] at h
  rcases h with rfl | rfl <;> rfl

/-! ## Claim theorems -/

/-- C4: the incremental event-stream decoder applied to
`"data: {\"a\":1}\n"` then `"\n"` yields exactly one event `{a:1}`, and
applied to `"data: {bad\n" + "\n" + "data: {\"b\":2}\n" + "\n"` yields
exactly one event `{b:2}`, silently dropping the malformed frame without
terminating the stream. -/
theorem C4_sse_decoder :
    parseSSEStream ["data: \x7b\"a\":1\x7d\n", "\n"] = [.jobj [("a", .jnum "1")]] ∧
    parseSSEStream ["data: \x7bbad\n", "\n", "data: \x7b\"b\":2\x7d\n", "\n"] =
      [.jobj [("b", .jnum "2")]] :=
  ⟨rfl, rfl⟩

/-- C10: every decoded stream event carrying usage metadata is emitted as
a chunk whose `totalTokenCount` is the sum of the upstream
`promptTokenCount` and `candidatesTokenCount` (absent counts read as 0),
regardless of the upstream `totalTokenCount`. -/
theorem C10_usage_total (modelId : String) (e : RawEvent) (u : RawUsage)
    (ch : ChunkData) (hu : e.usageMetadata = some u)
    (hch : processStreamEvent modelId e = some ch) :
    ch.usageMetadata = some
      { promptTokenCount := u.promptTokenCount.getD 0
        candidatesTokenCount := u.candidatesTokenCount.getD 0
        totalTokenCount := u.promptTokenCount.getD 0 + u.candidatesTokenCount.getD 0 } := by
  cases hc : e.candidates with
  | none => simp [processStreamEvent, hc] at hch
  | some cs =>
    simp [processStreamEvent, hc, hu, mapUsageMetadata] at hch
    rw [← hch]

/-- Witness for C10 at a concrete event whose upstream claims
`totalTokenCount = 99` while `3 + 4 = 7` is what gets emitted. -/
theorem C10_usage_total_witness :
    ({ candidates := [], usageMetadata := some ⟨3, 4, 7⟩, modelVersion := "m" } :
        ChunkData).usageMetadata =
      some { promptTokenCount := 3, candidatesTokenCount := 4, totalTokenCount := 3 + 4 } :=
  C10_usage_total "m" ⟨some [], some ⟨some 3, some 4, some 99⟩⟩
    ⟨some 3, some 4, some 99⟩ _ rfl rfl

/-- C5: a streaming attempt that is not marked as a retry and fails with
a transport-level failure — an AbortError (connection abort/timeout) or
any rejection within the 5 s quick-fail threshold of the attempt's start
— is retried exactly once with the identical request marked as retried;
whatever the retried attempt does is final: its failure (any rejection or
any HTTP status, none of which is subject to auth retry or fallback on a
retried attempt) terminates the stream, and its success ends it
normally. -/
theorem C5_transport_retry (env : AutoSwitchEnv) (req : StreamReq)
    (modelId : String) (startTime : Int) (e1 : Exc) (t1 : Int)
    (h1 : e1.isAbortError = true ∨ t1 - startTime < QUICK_FAIL_THRESHOLD_MS) :
    (∀ (e2 : Exc) (t2 : Int),
      performNativeStreamRequest 3 env [.preExc e1 t1, .preExc e2 t2] req modelId false
          startTime =
        ⟨[], [.fetchIssue req false, .fetchIssue req true], [], .failure e2, t2⟩) ∧
    (∀ (s2 : Nat) (t2 : Int),
      performNativeStreamRequest 3 env [.preExc e1 t1, .httpErr s2 t2] req modelId false
          startTime =
        ⟨[], [.fetchIssue req false, .fetchIssue req true], [],
          .failure ⟨false, "Stream request failed: " ++ toString s2⟩, t2⟩) ∧
    (∀ (events : List RawEvent) (t2 : Int),
      performNativeStreamRequest 3 env [.preExc e1 t1, .ok events t2] req modelId false
          startTime =
        ⟨events.filterMap (processStreamEvent modelId),
          [.fetchIssue req false, .fetchIssue req true], [], .success, t2⟩) := by
  have hcond : (e1.isAbortError || decide (t1 - startTime < QUICK_FAIL_THRESHOLD_MS)) = true := by
    rcases h1 with h | h
    · simp [h]
    · simp [h]
  refine ⟨fun e2 t2 => ?_, fun s2 t2 => ?_, fun events t2 => ?_⟩ <;>
    simp [performNativeStreamRequest, hcond]

/-- Witness for C5: an aborted connection at time 100, whose retry
rejects at time 99999, surfaces the retry's failure after exactly two
identical fetches. -/
theorem C5_transport_retry_witness :
    performNativeStreamRequest 3 ⟨none⟩ [.preExc ⟨true, "abort"⟩ 100, .preExc ⟨false, "x"⟩ 99999]
        ⟨"m", "B"⟩ "m" false 0 =
      ⟨[], [.fetchIssue ⟨"m", "B"⟩ false, .fetchIssue ⟨"m", "B"⟩ true], [],
        .failure ⟨false, "x"⟩, 99999⟩ :=
  (C5_transport_retry ⟨none⟩ ⟨"m", "B"⟩ "m" 0 ⟨true, "abort"⟩ 100 (Or.inl rfl)).1
    ⟨false, "x"⟩ 99999

/-- C3: a stream that goes idle makes the idle timer call
`reader.cancel("IdleTimeout")`, which (per WHATWG Streams) resolves the
pending read with `done: true` instead of rejecting it, so
`parseSSEStream` takes the `done` branch — flushing the pending payload
and completing normally — and no idle-timeout error reaches the caller,
contrary to the claim. -/
theorem C3_idle_cancel_ends_normally :
    runSSERead ⟨[], [], []⟩ [.chunk "data: \x7b\"a\":1\x7d\n", .idleCancelled] =
      .ended [.jobj [("a", .jnum "1")]] :=
  rfl

/-- C8: the credential refresh is not single-flight.  `AuthManager` keeps
no in-progress-refresh marker (its only mutable field is `accessToken`),
so a second `initializeAuth` call interleaved before the first one's
refresh response lands observes the same stale cache and issues its own
refresh POST: each call from this state performs one refresh call, hence
two concurrent callers issue two. -/
theorem C8_no_single_flight :
    initializeAuth (some ⟨"et", "ert", 2000⟩) none (some ⟨"ct", some "crt", 1000, 500⟩)
        600000 300000 (fun _ => .ok ⟨"newTok", 3600, none⟩) =
      ⟨some "newTok", some ⟨"newTok", some "crt", 4200000, 600000⟩, 1, .ok⟩ :=
  rfl

/-- C6: a cached credential with `expiry - now > bufferWindow` is adopted
by `initializeAuth` as-is, with no refresh call and the durable store
untouched. -/
theorem C6_fresh_cache_no_refresh (creds : OAuth2Credentials) (a0 : Option String)
    (c : CachedTokenData) (now bufferTime : Int)
    (oracle : String → Except String TokenRefreshResponse)
    (h : c.expiry_date - now > bufferTime) :
    initializeAuth (some creds) a0 (some c) now bufferTime oracle =
      ⟨some c.access_token, some c, 0, .ok⟩ := by
  simp [initializeAuth, h]

/-- Witness for C6: a cached token valid for far longer than the buffer
is adopted even though the refresh endpoint would fail. -/
theorem C6_fresh_cache_no_refresh_witness :
    (1000000 : Int) - 0 > 300000 ∧
    initializeAuth (some ⟨"et", "ert", 0⟩) none (some ⟨"ct", some "crt", 1000000, 0⟩) 0
        300000 (fun _ => .error "down") =
      ⟨some "ct", some ⟨"ct", some "crt", 1000000, 0⟩, 0, .ok⟩ :=
  ⟨by decide,
    C6_fresh_cache_no_refresh ⟨"et", "ert", 0⟩ none ⟨"ct", some "crt", 1000000, 0⟩ 0 300000
      (fun _ => .error "down") (by decide)⟩

/-- C7: with no usable cached credential (no cached record, or a stale
one without a refresh token), a seed credential whose expiry still
clears the buffer window is adopted, persisted to the durable store
(with `cached_at = now`), and the call returns with no refresh call. -/
theorem C7_seed_adopted_persisted (creds : OAuth2Credentials) (a0 : Option String)
    (now bufferTime : Int) (oracle : String → Except String TokenRefreshResponse)
    (h : creds.expiry_date - now > bufferTime) :
    (initializeAuth (some creds) a0 none now bufferTime oracle =
      ⟨some creds.access_token,
        some ⟨creds.access_token, some creds.refresh_token, creds.expiry_date, now⟩, 0, .ok⟩) ∧
    (∀ c : CachedTokenData, ¬ (c.expiry_date - now > bufferTime) → c.refresh_token = none →
      initializeAuth (some creds) a0 (some c) now bufferTime oracle =
        ⟨some creds.access_token,
          some ⟨creds.access_token, some creds.refresh_token, creds.expiry_date, now⟩, 0, .ok⟩) := by
  constructor
  · simp [initializeAuth, initializeAuthEnvPath, h]
  · intro c hc hrt
    simp [initializeAuth, initializeAuthEnvPath, hc, hrt, h]

/-- Witness for C7: with an empty cache, a seed credential expiring at
1000000 against a 5-minute buffer at time 0 is adopted and persisted,
with the refresh endpoint never consulted. -/
theorem C7_seed_adopted_persisted_witness :
    (1000000 : Int) - 0 > 300000 ∧
    initializeAuth (some ⟨"seedTok", "seedRt", 1000000⟩) none none 0 300000
        (fun _ => .error "down") =
      ⟨some "seedTok", some ⟨"seedTok", some "seedRt", 1000000, 0⟩, 0, .ok⟩ :=
  ⟨by decide,
    (C7_seed_adopted_persisted ⟨"seedTok", "seedRt", 1000000⟩ none 0 300000
      (fun _ => .error "down") (by decide)).1⟩

/-- C1 counterexample: fallback enabled, `gemini-2.5-pro` mapped to
`gemini-2.5-flash`, a first-attempt 429 at time 100, a 429 from the
substitute attempt at time 200, and a 429 at time 300.  The substitute
attempt's rate-limit failure is not terminal: it propagates into the
original frame's catch clause, which (the failure being within the 5 s
quick-fail window of the original attempt's start) issues a third fetch,
for the original model.  The claim asserts the failure is terminal. -/
theorem C1_counterexample :
    (performNativeStreamRequest 5 ⟨some "true"⟩
        [.httpErr 429 100, .httpErr 429 200, .httpErr 429 300]
        ⟨"gemini-2.5-pro", "B"⟩ "gemini-2.5-pro" false 0).trace =
      [.fetchIssue ⟨"gemini-2.5-pro", "B"⟩ false,
       .fetchIssue ⟨"gemini-2.5-flash", "B"⟩ true,
       .fetchIssue ⟨"gemini-2.5-pro", "B"⟩ true] ∧
    (performNativeStreamRequest 5 ⟨some "true"⟩
        [.httpErr 429 100, .httpErr 429 200, .httpErr 429 300]
        ⟨"gemini-2.5-pro", "B"⟩ "gemini-2.5-pro" false 0).result =
      .failure ⟨false, "Stream request failed: 429"⟩ :=
  ⟨rfl, rfl⟩

/-- C1 amended: a first-attempt rate-limit status with fallback enabled
and a substitute configured yields exactly one synthetic notice chunk
followed by the substitute attempt marked as retried; a rate-limit
failure of that substitute attempt is never subject to further fallback,
and is terminal when it surfaces outside the 5 s quick-fail window of the
original attempt's start — inside that window the original request is
retried once more (marked retried, against the original model) and that
attempt's failure is terminal. -/
theorem C1_fallback_amended (env : AutoSwitchEnv) (req : StreamReq)
    (modelId fb : String) (s1 s2 : Nat) (t1 t2 startTime : Int)
    (hfb : getFallbackModel modelId = some fb) (hen : isEnabled env = true)
    (h1 : isRateLimitStatus s1 = true) (_h2 : isRateLimitStatus s2 = true) :
    (¬ (t2 - startTime < QUICK_FAIL_THRESHOLD_MS) →
      performNativeStreamRequest 3 env [.httpErr s1 t1, .httpErr s2 t2] req modelId false
          startTime =
        ⟨[noticeChunk modelId fb],
          [.fetchIssue req false, .fetchIssue { req with model := fb } true], [],
          .failure ⟨false, "Stream request failed: " ++ toString s2⟩, t2⟩) ∧
    (∀ (s3 : Nat) (t3 : Int), t2 - startTime < QUICK_FAIL_THRESHOLD_MS →
      performNativeStreamRequest 4 env [.httpErr s1 t1, .httpErr s2 t2, .httpErr s3 t3] req
          modelId false startTime =
        ⟨[noticeChunk modelId fb],
          [.fetchIssue req false, .fetchIssue { req with model := fb } true,
           .fetchIssue req true], [],
          .failure ⟨false, "Stream request failed: " ++ toString s3⟩, t3⟩) := by
  have hne1 := rateLimit_ne_401 h1
  constructor
  · intro hslow
    simp [performNativeStreamRequest, hne1, h1, hfb, hen, hslow]
  · intro s3 t3 hquick
    simp [performNativeStreamRequest, hne1, h1, hfb, hen, hquick]

/-- Witness for C1 amended, slow branch: a 429 for `gemini-2.5-pro` at
time 100 and a 429 for the substitute at time 6000 produce the notice
chunk, the substitute fetch, and a terminal error. -/
theorem C1_fallback_amended_witness :
    ¬ ((6000 : Int) - 0 < QUICK_FAIL_THRESHOLD_MS) ∧
    performNativeStreamRequest 3 ⟨some "true"⟩ [.httpErr 429 100, .httpErr 429 6000]
        ⟨"gemini-2.5-pro", "B"⟩ "gemini-2.5-pro" false 0 =
      ⟨[noticeChunk "gemini-2.5-pro" "gemini-2.5-flash"],
        [.fetchIssue ⟨"gemini-2.5-pro", "B"⟩ false,
         .fetchIssue ⟨"gemini-2.5-flash", "B"⟩ true], [],
        .failure ⟨false, "Stream request failed: 429"⟩, 6000⟩ :=
  ⟨by decide,
    (C1_fallback_amended ⟨some "true"⟩ ⟨"gemini-2.5-pro", "B"⟩ "gemini-2.5-pro"
      "gemini-2.5-flash" 429 429 100 6000 0 rfl rfl rfl rfl).1 (by decide)⟩

/-- C2 counterexample: on the streaming path, a 401 at time 100, a 401 of
the retried attempt at time 200, and a 401 at time 300.  The retried
attempt's 401 is not fatal-with-no-further-retry: it propagates into the
original frame's catch clause which, the failure being within the 5 s
quick-fail window, issues a third fetch before the error becomes
terminal. -/
theorem C2_counterexample :
    (performNativeStreamRequest 4 ⟨none⟩
        [.httpErr 401 100, .httpErr 401 200, .httpErr 401 300]
        ⟨"m", "B"⟩ "m" false 0).trace =
      [.fetchIssue ⟨"m", "B"⟩ false, .authReauth, .fetchIssue ⟨"m", "B"⟩ true,
       .fetchIssue ⟨"m", "B"⟩ true] :=
  rfl

/-- C2 amended: on the invoke path (`callEndpoint`), a 401 on a
non-retried call causes exactly one retry — clear the in-memory and
durable credential, re-run authentication, reissue the call marked as
retried — and the retried call's outcome is final, a second 401
surfacing as an error with no further retry.  On the streaming path the
same single 401-retry happens, and a 401 of the retried attempt is
terminal when it surfaces outside the 5 s quick-fail window of the
original attempt's start; inside that window one further identical fetch
(a quick-fail retry) is issued before the failure becomes terminal. -/
theorem C2_auth_retry_amended :
    (∀ (b1 body method : String) (rest : List CallOutcome),
      callEndpoint (.httpFail 401 b1 :: .okResp body :: rest) method false =
        ⟨[.authInit, .fetchCall method false, .clearCache, .authInit, .authInit,
          .fetchCall method true], .success body, rest⟩) ∧
    (∀ (b1 b2 method : String) (s2 : Nat) (rest : List CallOutcome),
      callEndpoint (.httpFail 401 b1 :: .httpFail s2 b2 :: rest) method false =
        ⟨[.authInit, .fetchCall method false, .clearCache, .authInit, .authInit,
          .fetchCall method true],
          .callFailed ("API call failed with status " ++ toString s2 ++ ": " ++ b2), rest⟩) ∧
    (∀ (env : AutoSwitchEnv) (req : StreamReq) (modelId : String) (t1 t2 startTime : Int),
      ¬ (t2 - startTime < QUICK_FAIL_THRESHOLD_MS) →
      performNativeStreamRequest 3 env [.httpErr 401 t1, .httpErr 401 t2] req modelId false
          startTime =
        ⟨[], [.fetchIssue req false, .authReauth, .fetchIssue req true], [],
          .failure ⟨false, "Stream request failed: " ++ toString 401⟩, t2⟩) ∧
    (∀ (env : AutoSwitchEnv) (req : StreamReq) (modelId : String) (t1 t2 t3 startTime : Int),
      t2 - startTime < QUICK_FAIL_THRESHOLD_MS →
      performNativeStreamRequest 4 env [.httpErr 401 t1, .httpErr 401 t2, .httpErr 401 t3]
          req modelId false startTime =
        ⟨[], [.fetchIssue req false, .authReauth, .fetchIssue req true,
          .fetchIssue req true], [],
          .failure ⟨false, "Stream request failed: " ++ toString 401⟩, t3⟩) := by
  refine ⟨fun b1 body method rest => ?_, fun b1 b2 method s2 rest => ?_,
    fun env req modelId t1 t2 startTime hslow => ?_,
    fun env req modelId t1 t2 t3 startTime hquick => ?_⟩
  · simp [callEndpoint]
  · simp [callEndpoint]
  · simp [performNativeStreamRequest, isRateLimitStatus, RATE_LIMIT_STATUS_CODES, hslow]
  · simp [performNativeStreamRequest, isRateLimitStatus, RATE_LIMIT_STATUS_CODES, hquick]

/-- Witness for C2 amended: a 401 then a successful retry on the invoke
path returns the retried call's body after one clear-and-reauth cycle. -/
theorem C2_auth_retry_amended_witness :
    callEndpoint [.httpFail 401 "unauthorized", .okResp "payload"] "loadCodeAssist" false =
      ⟨[.authInit, .fetchCall "loadCodeAssist" false, .clearCache, .authInit, .authInit,
        .fetchCall "loadCodeAssist" true], .success "payload", []⟩ :=
  C2_auth_retry_amended.1 "unauthorized" "payload" "loadCodeAssist" []

theorem lastSeenOr_concat {α : Type} (d : Option α) (xs : List α) (v : α) :
    lastSeenOr d (xs ++ [v]) = some v := by
  simp [lastSeenOr, List.getLast?_concat]

theorem lastSeenOr_none {α : Type} (xs : List α) :
    lastSeenOr (none : Option α) xs = xs.getLast? := by
  unfold lastSeenOr
  cases h : xs.getLast? <;> rfl

theorem lastSeenOr_some_cons {α : Type} (x : α) (l : List α) :
    lastSeenOr (some x) l = (x :: l).getLast? := by
  cases l with
  | nil => rfl
  | cons y t =>
    unfold lastSeenOr
    rw [List.getLast?_cons_cons]
    obtain ⟨v, hv⟩ := Option.isSome_iff_exists.mp
      (List.getLast?_isSome.mpr (List.cons_ne_nil y t))
    rw [hv]

/-- Folding candidates into an existing aggregate candidate concatenates
parts and lets the last truthy `finishReason` / last present
`groundingMetadata` win. -/
theorem candidateStep_foldl (cs : List Candidate) (b : Candidate) :
    cs.foldl candidateStep (some b) = some
      { role := b.role
        parts := b.parts ++ cs.flatMap (·.parts)
        finishReason := lastSeenOr b.finishReason
          ((cs.filterMap (·.finishReason)).filter (fun fr => fr ≠ ""))
        groundingMetadata := lastSeenOr b.groundingMetadata
          (cs.filterMap (·.groundingMetadata)) } := by
  induction cs using List.reverseRecOn with
  | nil => simp [lastSeenOr]
  | append_singleton cs c ih =>
    rw [List.foldl_append, ih, List.foldl_cons]
    show candidateStep _ c = _
    rcases hf : c.finishReason with _ | fr <;>
      rcases hg : c.groundingMetadata with _ | g
    · simp [candidateStep, hf, hg, List.flatMap_append, List.filterMap_append,
        List.filter_append, List.append_assoc]
    · simp [candidateStep, hf, hg, List.flatMap_append, List.filterMap_append,
        List.filter_append, List.append_assoc, lastSeenOr_concat]
    · by_cases hfr : fr = "" <;>
        simp [candidateStep, hf, hg, hfr, List.flatMap_append, List.filterMap_append,
          List.filter_append, List.append_assoc, lastSeenOr_concat]
    · by_cases hfr : fr = "" <;>
        simp [candidateStep, hf, hg, hfr, List.flatMap_append, List.filterMap_append,
          List.filter_append, List.append_assoc, lastSeenOr_concat]

/-- Folding candidates starting from no aggregate candidate: the first
arriving candidate creates the aggregate with role "model". -/
theorem candidateStep_foldl_cons (c : Candidate) (cs : List Candidate) :
    (c :: cs).foldl candidateStep none = some
      { role := "model"
        parts := (c :: cs).flatMap (·.parts)
        finishReason := (((c :: cs).filterMap (·.finishReason)).filter
          (fun fr => fr ≠ "")).getLast?
        groundingMetadata := ((c :: cs).filterMap (·.groundingMetadata)).getLast? } := by
  rw [List.foldl_cons]
  rcases hf : c.finishReason with _ | fr <;>
    rcases hg : c.groundingMetadata with _ | g
  · rw [show candidateStep none c =
        some ⟨"model", c.parts, none, none⟩ by simp [candidateStep, hf, hg]]
    rw [candidateStep_foldl]
    simp [hf, hg, List.filterMap_cons, lastSeenOr_none]
  · rw [show candidateStep none c =
        some ⟨"model", c.parts, none, some g⟩ by simp [candidateStep, hf, hg]]
    rw [candidateStep_foldl]
    simp [hf, hg, List.filterMap_cons, lastSeenOr_none, lastSeenOr_some_cons]
  · by_cases hfr : fr = ""
    · rw [show candidateStep none c =
          some ⟨"model", c.parts, none, none⟩ by simp [candidateStep, hf, hg, hfr]]
      rw [candidateStep_foldl]
      simp [hf, hg, hfr, List.filterMap_cons, lastSeenOr_none]
    · rw [show candidateStep none c =
          some ⟨"model", c.parts, some fr, none⟩ by simp [candidateStep, hf, hg, hfr]]
      rw [candidateStep_foldl]
      simp [hf, hg, hfr, List.filterMap_cons, lastSeenOr_none, lastSeenOr_some_cons]
  · by_cases hfr : fr = ""
    · rw [show candidateStep none c =
          some ⟨"model", c.parts, none, some g⟩ by simp [candidateStep, hf, hg, hfr]]
      rw [candidateStep_foldl]
      simp [hf, hg, hfr, List.filterMap_cons, lastSeenOr_none, lastSeenOr_some_cons]
    · rw [show candidateStep none c =
          some ⟨"model", c.parts, some fr, some g⟩ by simp [candidateStep, hf, hg, hfr]]
      rw [candidateStep_foldl]
      simp [hf, hg, hfr, List.filterMap_cons, lastSeenOr_none, lastSeenOr_some_cons]

/-- The chunk-level drain loop splits into the candidate fold over all
arriving candidates and last-present-wins usage metadata. -/
theorem aggregateStep_foldl (chunks : List ChunkData) (a : Option Candidate)
    (u : Option Usage) :
    chunks.foldl aggregateStep (a, u) =
      ((chunks.flatMap (·.candidates)).foldl candidateStep a,
        lastSeenOr u (chunks.filterMap (·.usageMetadata))) := by
  induction chunks using List.reverseRecOn with
  | nil => simp [lastSeenOr]
  | append_singleton chs ch ih =>
    rw [List.foldl_append, ih, List.foldl_cons]
    rcases hu : ch.usageMetadata with _ | w
    · simp [aggregateStep, hu, List.flatMap_append, List.filterMap_append,
        List.foldl_append]
    · simp [aggregateStep, hu, List.flatMap_append, List.filterMap_append,
        List.foldl_append, lastSeenOr_concat]

/-- C9 counterexample: a finite chunk sequence legitimately produced by
the streaming operation can be empty (an upstream stream whose events
all lack candidates yields no chunks), and then `getCompletionNative`
returns zero candidates, not the single candidate the claim asserts. -/
theorem C9_counterexample :
    (performNativeStreamRequest 1 ⟨none⟩ [.ok [] 5] ⟨"m", "B"⟩ "m" false 0).emitted = [] ∧
    (getCompletionNative "m" []).candidates.length = 0 :=
  ⟨rfl, rfl⟩

/-- C9 amended: when at least one candidate arrives,
`generateAggregate` (`getCompletionNative`) returns one candidate whose
parts are the concatenation, in arrival order, of every arriving
candidate's parts, and whose finishReason and groundingMetadata are the
last-seen (truthy) values among the arriving candidates; when no
candidate arrives the candidate list is empty.  The usage metadata is
the last seen among the chunks, and the model version is the requested
model. -/
theorem C9_aggregate_amended (modelId : String) (chunks : List ChunkData) :
    ((chunks.flatMap (·.candidates)) ≠ [] →
      (getCompletionNative modelId chunks).candidates =
        [{ role := "model"
           parts := (chunks.flatMap (·.candidates)).flatMap (·.parts)
           finishReason := (((chunks.flatMap (·.candidates)).filterMap
             (·.finishReason)).filter (fun fr => fr ≠ "")).getLast?
           groundingMetadata := ((chunks.flatMap (·.candidates)).filterMap
             (·.groundingMetadata)).getLast? }]) ∧
    ((chunks.flatMap (·.candidates)) = [] →
      (getCompletionNative modelId chunks).candidates = []) ∧
    (getCompletionNative modelId chunks).usageMetadata =
      (chunks.filterMap (·.usageMetadata)).getLast? ∧
    (getCompletionNative modelId chunks).modelVersion = modelId := by
  refine ⟨?_, ?_, ?_, ?_⟩
  · intro h
    show (getCompletionNative modelId chunks).candidates = _
    unfold getCompletionNative
    rw [aggregateStep_foldl]
    cases hL : chunks.flatMap (·.candidates) with
    | nil => exact absurd hL h
    | cons c cs => rw [candidateStep_foldl_cons]
  · intro h
    unfold getCompletionNative
    rw [aggregateStep_foldl, h]
    simp
  · unfold getCompletionNative
    rw [aggregateStep_foldl, lastSeenOr_none]
  · rfl

/-- Witness for C9 amended: three chunks, each contributing one text
part, the last also carrying a finish reason and usage metadata,
aggregate to one candidate with the three texts in order, the last
finish reason, and the last usage metadata. -/
theorem C9_aggregate_amended_witness :
    (getCompletionNative "m"
        [⟨[⟨"model", [.text "A"], none, none⟩], none, "m"⟩,
         ⟨[⟨"model", [.text "B"], none, none⟩], none, "m"⟩,
         ⟨[⟨"model", [.text "C"], some "STOP", none⟩], some ⟨1, 2, 3⟩, "m"⟩]).candidates =
      [⟨"model", [.text "A", .text "B", .text "C"], some "STOP", none⟩] ∧
    (getCompletionNative "m"
        [⟨[⟨"model", [.text "A"], none, none⟩], none, "m"⟩,
         ⟨[⟨"model", [.text "B"], none, none⟩], none, "m"⟩,
         ⟨[⟨"model", [.text "C"], some "STOP", none⟩], some ⟨1, 2, 3⟩, "m"⟩]).usageMetadata =
      some ⟨1, 2, 3⟩ :=
  ⟨(C9_aggregate_amended "m"
      [⟨[⟨"model", [.text "A"], none, none⟩], none, "m"⟩,
       ⟨[⟨"model", [.text "B"], none, none⟩], none, "m"⟩,
       ⟨[⟨"model", [.text "C"], some "STOP", none⟩], some ⟨1, 2, 3⟩, "m"⟩]).1 (by decide),
   (C9_aggregate_amended "m"
      [⟨[⟨"model", [.text "A"], none, none⟩], none, "m"⟩,
       ⟨[⟨"model", [.text "B"], none, none⟩], none, "m"⟩,
       ⟨[⟨"model", [.text "C"], some "STOP", none⟩], some ⟨1, 2, 3⟩, "m"⟩]).2.2.1⟩

end GeminiCli
